import Mathlib

/-! # Endless runner (`js/script.js`): simulation core

A shallow embedding of the per-frame simulation of `js/script.js`: the global
variables become the fields of `Game`, the p5 callbacks `draw`, `keyPressed`,
`keyReleased` and `mousePressed` become functions on `Game`.

Numbers are exact rationals.  Drawing calls, the star field and the decorative
grid lines do not influence any variable modelled here and are left out.  Every
call of p5's `random` receives its underlying uniform draw in `[0, 1)` as an
argument (`Draws` for one frame).
-/

namespace DinoGame

/-! ## Constants (script.js 1-55, 62-75) -/

/-- Canvas width, `createCanvas(800, 400)`. -/
def width : ℚ := 800

/-- Canvas height, `createCanvas(800, 400)`. -/
def height : ℚ := 400

/-- Ground level, `groundY = height * 0.9`. -/
def groundY : ℚ := height * (9 / 10)

/-- Horizontal anchor of the dinosaur, `dinoX = 60`. -/
def dinoX : ℚ := 60

def dinoSize : ℚ := 40

def gravity : ℚ := 8 / 10

def jumpForce : ℚ := -15

def DINO_NORMAL_HEIGHT : ℚ := dinoSize * (9 / 10)

def DINO_CROUCH_HEIGHT : ℚ := dinoSize * (5 / 10)

def DINO_ANIMATION_SPEED : ℤ := 5

def initialGameSpeed : ℚ := 5

def gameSpeedAcceleration : ℚ := 1 / 1000

def GRID_LINE_SPACING : ℚ := 50

def GLITCH_DURATION_FRAMES : ℤ := 4

def GLITCH_INTERVAL_MIN : ℚ := 120

def GLITCH_INTERVAL_MAX : ℚ := 300

/-- Key code of the space bar, the literal `32` of `keyPressed`. -/
def SPACE : ℕ := 32

/-- Key code p5 binds to `ENTER`. -/
def ENTER : ℕ := 13

/-- Key code p5 binds to `DOWN_ARROW`. -/
def DOWN_ARROW : ℕ := 40

/-- The resting height of the dinosaur's anchor, `groundY - dinoSize / 2`. -/
def groundLine : ℚ := groundY - dinoSize / 2

/-! ## Data model -/

inductive GameState where
  | playing
  | gameOver
  deriving DecidableEq

inductive ObstacleType where
  | ground
  | bird
  deriving DecidableEq

/-- An entry of the `obstacles` array. -/
structure Obstacle where
  type : ObstacleType
  x : ℚ
  y : ℚ
  width : ℚ
  height : ℚ
  deriving DecidableEq

/-- The global variables of the script that the simulation reads or writes,
together with p5's `frameCount`. -/
structure Game where
  frameCount : ℤ
  gameState : GameState
  dinoY : ℚ
  dinoVelocityY : ℚ
  isCrouching : Bool
  isDinoOnGround : Bool
  dinoLegsState : ℤ
  dinoAnimationTimer : ℤ
  obstacles : List Obstacle
  obstacleInterval : ℤ
  frameCounter : ℤ
  gameSpeed : ℚ
  score : ℕ
  highScore : ℕ
  groundGridOffset : ℚ
  glitchActive : Bool
  glitchStartFrame : ℤ
  nextGlitchTrigger : ℤ
  deriving DecidableEq

/-- The uniform draws in `[0, 1)` behind the calls of `random` in the playing
branch of `draw`, one field per call site. -/
structure Draws where
  /-- Line 107, `random(GLITCH_INTERVAL_MIN, GLITCH_INTERVAL_MAX)`. -/
  glitch : ℚ
  /-- Line 118, `random()`. -/
  kind : ℚ
  /-- Line 119, `random(30, 60)`. -/
  obstacleHeight : ℚ
  /-- Line 124, `random(20, 40)`. -/
  obstacleWidth : ℚ
  /-- Line 131, `random(20, 50)`. -/
  birdOffset : ℚ
  /-- Line 137, `random(90, 130)`. -/
  interval : ℚ
  deriving DecidableEq

/-- Every draw lies in `[0, 1)`. -/
def Draws.valid (d : Draws) : Prop :=
  (0 ≤ d.glitch ∧ d.glitch < 1) ∧ (0 ≤ d.kind ∧ d.kind < 1) ∧
  (0 ≤ d.obstacleHeight ∧ d.obstacleHeight < 1) ∧
  (0 ≤ d.obstacleWidth ∧ d.obstacleWidth < 1) ∧
  (0 ≤ d.birdOffset ∧ d.birdOffset < 1) ∧ (0 ≤ d.interval ∧ d.interval < 1)

instance (d : Draws) : Decidable d.valid := by
  unfold Draws.valid; infer_instance

/-! ## Library functions -/

/-- p5 `random(min, max)` on the uniform draw `u`: `u * (max - min) + min`. -/
def random (u min max : ℚ) : ℚ := u * (max - min) + min

/-- p5 `floor`. -/
def floor (q : ℚ) : ℤ := Rat.floor q

/-- The `%` of JavaScript on numbers: the remainder has the sign of the
dividend, `a - b * trunc(a / b)`. -/
def jsMod (a b : ℚ) : ℚ :=
  let q := a / b
  a - b * (if 0 ≤ q then (Rat.floor q : ℚ) else (Rat.ceil q : ℚ))

/-! ## checkCollision (script.js 307-325) -/

def currentBodyHeight (isCrouching : Bool) : ℚ :=
  if isCrouching then DINO_CROUCH_HEIGHT else DINO_NORMAL_HEIGHT

def yOffset (isCrouching : Bool) : ℚ :=
  if isCrouching then (DINO_NORMAL_HEIGHT - DINO_CROUCH_HEIGHT) / 2 else 0

def dinoLeft : ℚ := dinoX - dinoSize / 2

def dinoRight : ℚ := dinoX + dinoSize / 2

def dinoTop (s : Game) : ℚ :=
  s.dinoY - currentBodyHeight s.isCrouching / 2 + yOffset s.isCrouching

def dinoBottom (s : Game) : ℚ :=
  s.dinoY + currentBodyHeight s.isCrouching / 2 + yOffset s.isCrouching

def obsLeft (o : Obstacle) : ℚ := o.x

def obsRight (o : Obstacle) : ℚ := o.x + o.width

def obsTop (o : Obstacle) : ℚ := o.y

def obsBottom (o : Obstacle) : ℚ := o.y + o.height

/-- The function `checkCollision(obstacle)`, reading `dinoY` and `isCrouching`
from the globals. -/
def checkCollision (s : Game) (obstacle : Obstacle) : Bool :=
  decide (dinoRight > obsLeft obstacle) && decide (dinoLeft < obsRight obstacle) &&
    decide (dinoBottom s > obsTop obstacle) && decide (dinoTop s < obsBottom obstacle)

/-! ## resetGame and setup (script.js 62-75, 327-343) -/

/-- The function `resetGame()`; `u` is the draw behind line 340. -/
def resetGame (u : ℚ) (s : Game) : Game :=
  { s with
    highScore := if s.score > s.highScore then s.score else s.highScore
    gameState := .playing
    obstacles := []
    dinoY := groundY - dinoSize / 2
    dinoVelocityY := 0
    frameCounter := 0
    score := 0
    gameSpeed := initialGameSpeed
    nextGlitchTrigger :=
      s.frameCount + floor (random u GLITCH_INTERVAL_MIN GLITCH_INTERVAL_MAX)
    glitchActive := false
    isCrouching := false }

/-- The globals as their declarations initialise them, before `setup` runs;
`dinoY` and `gameSpeed` are declared without a value and are first written by
`resetGame`. -/
def declared : Game where
  frameCount := 0
  gameState := .playing
  dinoY := 0
  dinoVelocityY := 0
  isCrouching := false
  isDinoOnGround := true
  dinoLegsState := 0
  dinoAnimationTimer := 0
  obstacles := []
  obstacleInterval := 90
  frameCounter := 0
  gameSpeed := 0
  score := 0
  highScore := 0
  groundGridOffset := 0
  glitchActive := false
  glitchStartFrame := 0
  nextGlitchTrigger := 0

/-- The function `setup()`: the state in which the first frame starts. -/
def setup (u : ℚ) : Game := resetGame u declared

/-! ## draw (script.js 81-213) -/

/-- Lines 97-99: score, speed and ground scroll. -/
def difficultyStep (s : Game) : Game :=
  let gameSpeed := s.gameSpeed + gameSpeedAcceleration
  { s with
    score := s.score + 1
    gameSpeed := gameSpeed
    groundGridOffset := jsMod (s.groundGridOffset + gameSpeed) GRID_LINE_SPACING }

/-- Lines 103-108: arming of the glitch. -/
def glitchTrigger (d : Draws) (s : Game) : Game :=
  if s.frameCount > s.nextGlitchTrigger then
    { s with
      glitchActive := true
      glitchStartFrame := s.frameCount
      nextGlitchTrigger :=
        s.frameCount + floor (random d.glitch GLITCH_INTERVAL_MIN GLITCH_INTERVAL_MAX) }
  else s

/-- Lines 110-112: the glitch is switched off. -/
def glitchExpire (s : Game) : Game :=
  if s.glitchActive && decide (s.frameCount > s.glitchStartFrame + GLITCH_DURATION_FRAMES) then
    { s with glitchActive := false }
  else s

/-- Lines 119-126: the ground obstacle pushed by the spawn step. -/
def newGroundObstacle (d : Draws) : Obstacle :=
  let obstacleHeight := random d.obstacleHeight 30 60
  { type := .ground
    x := width
    y := groundY - obstacleHeight
    width := random d.obstacleWidth 20 40
    height := obstacleHeight }

/-- Lines 128-134: the bird pushed by the spawn step. -/
def newBird (d : Draws) : Obstacle :=
  { type := .bird
    x := width
    y := groundY - dinoSize - random d.birdOffset 20 50
    width := 35
    height := 20 }

/-- Lines 114-138: the obstacle generator. -/
def spawnStep (d : Draws) (s : Game) : Game :=
  let s := { s with frameCounter := s.frameCounter + 1 }
  if s.frameCounter > s.obstacleInterval then
    let obstacles :=
      if decide (d.kind < 7 / 10) || decide (s.obstacles.length = 0) then
        s.obstacles ++ [newGroundObstacle d]
      else
        s.obstacles ++ [newBird d]
    { s with
      obstacles := obstacles
      frameCounter := 0
      obstacleInterval := floor (random d.interval 90 130) }
  else s

/-- Lines 141-150: gravity, integration and the clamp to the ground. -/
def physicsStep (s : Game) : Game :=
  let dinoVelocityY := s.dinoVelocityY + gravity
  let dinoY := s.dinoY + dinoVelocityY
  let isDinoOnGround := decide (dinoY ≥ groundY - dinoSize / 2)
  if dinoY > groundY - dinoSize / 2 then
    { s with
      dinoY := groundY - dinoSize / 2
      dinoVelocityY := 0
      isDinoOnGround := isDinoOnGround }
  else
    { s with
      dinoY := dinoY
      dinoVelocityY := dinoVelocityY
      isDinoOnGround := isDinoOnGround }

/-- Lines 153-160: the running animation. -/
def animationStep (s : Game) : Game :=
  if s.isDinoOnGround then
    let timer := s.dinoAnimationTimer + 1
    if timer > DINO_ANIMATION_SPEED then
      { s with dinoLegsState := (s.dinoLegsState + 1) % 2, dinoAnimationTimer := 0 }
    else
      { s with dinoAnimationTimer := timer }
  else s

/-- Lines 166-198, the loop over `obstacles` from the last index down to 0:
each obstacle moves left by `gameSpeed`, a hit sets the second component, and
an obstacle left of the screen is spliced out.  The player is not modified by
the loop, so `s` is the state in which the loop starts. -/
def obstacleLoop (s : Game) : List Obstacle → List Obstacle × Bool
  | [] => ([], false)
  | obs :: rest =>
    let (rest', hit) := obstacleLoop s rest
    let obs' := { obs with x := obs.x - s.gameSpeed }
    let hit' := hit || checkCollision s obs'
    if obs'.x + obs'.width < 0 then (rest', hit') else (obs' :: rest', hit')

/-- Lines 166-198 on the globals. -/
def obstacleStep (s : Game) : Game :=
  let r := obstacleLoop s s.obstacles
  { s with
    obstacles := r.1
    gameState := if r.2 then .gameOver else s.gameState }

/-- The function `draw()`: the `playing` branch runs the steps in source
order, the `gameOver` branch only paints. -/
def draw (d : Draws) (s : Game) : Game :=
  match s.gameState with
  | .playing =>
    obstacleStep (animationStep (physicsStep (spawnStep d
      (glitchExpire (glitchTrigger d (difficultyStep s))))))
  | .gameOver => s

/-- The frame counter advances by one; p5 does this before it calls `draw()`. -/
def nextFrame (s : Game) : Game :=
  { s with frameCount := s.frameCount + 1 }

/-- One frame: p5 increments `frameCount` and calls `draw()`. -/
def tick (d : Draws) (s : Game) : Game :=
  draw d (nextFrame s)

/-! ## Input handlers (script.js 349-392) -/

/-- The function `jump()`. -/
def jump (s : Game) : Game :=
  if s.gameState = .playing ∧ s.isDinoOnGround = true ∧ s.isCrouching = false then
    { s with dinoVelocityY := jumpForce }
  else s

/-- The function `keyPressed()` for the key `keyCode`; `u` is the draw used
if the key restarts the game. -/
def keyPressed (keyCode : ℕ) (u : ℚ) (s : Game) : Game :=
  if keyCode = SPACE then jump s
  else if keyCode = ENTER ∧ s.gameState = .gameOver then resetGame u s
  else if keyCode = DOWN_ARROW then
    if s.isDinoOnGround then { s with isCrouching := true } else s
  else s

/-- The function `keyReleased()` for the key `keyCode`. -/
def keyReleased (keyCode : ℕ) (s : Game) : Game :=
  if keyCode = DOWN_ARROW then { s with isCrouching := false } else s

/-- The function `mousePressed()`. -/
def mousePressed (u : ℚ) (s : Game) : Game :=
  match s.gameState with
  | .playing => jump s
  | .gameOver => resetGame u s

/-! ## Sessions -/

/-- What can happen between two states: a frame or an input event. -/
inductive Event where
  | tick (d : Draws)
  | keyPressed (keyCode : ℕ) (u : ℚ)
  | keyReleased (keyCode : ℕ)
  | mousePressed (u : ℚ)
  deriving DecidableEq

def step (s : Game) : Event → Game
  | .tick d => tick d s
  | .keyPressed k u => keyPressed k u s
  | .keyReleased k => keyReleased k s
  | .mousePressed u => mousePressed u s

/-- The state after the events `es`, oldest first. -/
def run (s : Game) (es : List Event) : Game := es.foldl step s

/-- The state after `n` frames without input, frame `i` using `ds i`. -/
def ticks (ds : ℕ → Draws) : ℕ → Game → Game
  | 0, s => s
  | n + 1, s => tick (ds n) (ticks ds n s)

/-! ## Predicates used in the statements -/

/-- What a frame guarantees about the player: not below the ground line, and
flagged as grounded exactly on it. -/
def Grounding (s : Game) : Prop :=
  s.dinoY ≤ groundLine ∧ (s.isDinoOnGround = true ↔ s.dinoY = groundLine)

/-- A frame, or a press of the space bar (the jump key). -/
def Event.isTickOrJump : Event → Bool
  | .tick _ => true
  | .keyPressed k _ => decide (k = SPACE)
  | _ => false

/-- The state `s` with p5's frame counter at `f`. -/
def atFrame (f : ℤ) (s : Game) : Game :=
  { s with frameCount := f }

/-- State of an undisturbed run after `n` frames: playing, the player at rest
on the ground line, score `n`, speed `5 + n / 1000`, and every obstacle at
least `6 n` short of the right edge. -/
def Quiet (n : ℕ) (s : Game) : Prop :=
  s.gameState = .playing ∧ s.isDinoOnGround = true ∧ s.dinoY = groundLine ∧
    s.dinoVelocityY = 0 ∧ s.score = n ∧ s.gameSpeed = 5 + (n : ℚ) / 1000 ∧
    ∀ o ∈ s.obstacles, width - 6 * (n : ℚ) ≤ o.x

/-- State of the player `k` frames into a jump: height and velocity of the
explicit Euler integration. -/
def Arc (k : ℕ) (s : Game) : Prop :=
  s.dinoY = groundLine - 15 * (k : ℚ) + 4 / 10 * (k : ℚ) * ((k : ℚ) + 1) ∧
    s.dinoVelocityY = -15 + 8 / 10 * (k : ℚ)

/-! ## Sample inputs -/

/-- A frame's draws, all at the lower end of their ranges. -/
def lowDraws : Draws := ⟨0, 0, 0, 0, 0, 0⟩

/-- A game-over state: score 230, high score 100, one obstacle at the player. -/
def crashed : Game :=
  { declared with
    frameCount := 230
    gameState := .gameOver
    dinoY := 340
    obstacles := [⟨.ground, 70, 330, 20, 30⟩]
    gameSpeed := 523 / 100
    score := 230
    highScore := 100 }

/-- A session that crashes in the air: 229 frames without input (the first
obstacle, spawned in frame 91, is then at `x = 82.76`), a jump, and frame 230,
in which the obstacle reaches `x = 77.53` under the rising player. -/
def airborneCrash : List Event :=
  List.replicate 229 (.tick lowDraws) ++ [.keyPressed SPACE 0, .tick lowDraws]

/-! # Theorems -/

/-! ## Collision geometry -/

theorem dinoLeft_eq : dinoLeft = dinoX - 20 := by
  norm_num [dinoLeft, dinoSize]

theorem dinoRight_eq : dinoRight = dinoX + 20 := by
  norm_num [dinoRight, dinoSize]

theorem dinoTop_eq (s : Game) :
    dinoTop s = if s.isCrouching then s.dinoY - 2 else s.dinoY - 18 := by
  unfold dinoTop currentBodyHeight yOffset
  split
  · norm_num [DINO_NORMAL_HEIGHT, DINO_CROUCH_HEIGHT, dinoSize]; ring
  · norm_num [DINO_NORMAL_HEIGHT, DINO_CROUCH_HEIGHT, dinoSize]

theorem dinoBottom_eq (s : Game) : dinoBottom s = s.dinoY + 18 := by
  unfold dinoBottom currentBodyHeight yOffset
  split
  · norm_num [DINO_NORMAL_HEIGHT, DINO_CROUCH_HEIGHT, dinoSize]; ring
  · norm_num [DINO_NORMAL_HEIGHT, DINO_CROUCH_HEIGHT, dinoSize]

theorem groundLine_eq : groundLine = 340 := by
  norm_num [groundLine, groundY, height, dinoSize]

theorem checkCollision_eq_true_iff (s : Game) (o : Obstacle) :
    checkCollision s o = true ↔
      o.x < dinoRight ∧ dinoLeft < o.x + o.width ∧
        o.y < dinoBottom s ∧ dinoTop s < o.y + o.height := by
  simp [checkCollision, obsLeft, obsRight, obsTop, obsBottom, and_assoc]

/-- Claim C1: `checkCollision` answers true exactly when the hitbox
`[dinoX - 20, dinoX + 20] x [top, dinoY + 18]` (with `top = dinoY - 18`
standing and `dinoY - 2` crouching) and the obstacle rectangle
`[x, x + width] x [y, y + height]` overlap strictly on both axes; an obstacle
that shares one boundary line with the hitbox is not a collision. -/
theorem checkCollision_strict_overlap (s : Game) (o : Obstacle) :
    (checkCollision s o = true ↔
      (dinoX + 20 > o.x ∧ dinoX - 20 < o.x + o.width ∧
        s.dinoY + 18 > o.y ∧
        (if s.isCrouching then s.dinoY - 2 else s.dinoY - 18) < o.y + o.height)) ∧
    (o.x = dinoX + 20 → checkCollision s o = false) ∧
    (o.x + o.width = dinoX - 20 → checkCollision s o = false) ∧
    (o.y = s.dinoY + 18 → checkCollision s o = false) ∧
    (o.y + o.height = (if s.isCrouching then s.dinoY - 2 else s.dinoY - 18) →
      checkCollision s o = false) := by
  have key := checkCollision_eq_true_iff s o
  rw [dinoRight_eq, dinoLeft_eq, dinoBottom_eq, dinoTop_eq] at key
  refine ⟨?_, ?_, ?_, ?_, ?_⟩
  · rw [key]
  · intro h
    rw [Bool.eq_false_iff, Ne, key]
    rintro ⟨h1, -, -, -⟩
    exact absurd h1 (by rw [h]; exact lt_irrefl _)
  · intro h
    rw [Bool.eq_false_iff, Ne, key]
    rintro ⟨-, h2, -, -⟩
    exact absurd h2 (by rw [h]; exact lt_irrefl _)
  · intro h
    rw [Bool.eq_false_iff, Ne, key]
    rintro ⟨-, -, h3, -⟩
    exact absurd h3 (by rw [h]; exact lt_irrefl _)
  · intro h
    rw [Bool.eq_false_iff, Ne, key]
    rintro ⟨-, -, -, h4⟩
    exact absurd h4 (by rw [h]; exact lt_irrefl _)

/-- Witness for C1: a standing player on the ground line and a ground obstacle
whose left edge is exactly the hitbox's right edge `x = 80`. -/
theorem checkCollision_strict_overlap_witness :
    (⟨.ground, 80, 330, 20, 30⟩ : Obstacle).x = dinoX + 20 ∧
      checkCollision (setup 0) ⟨.ground, 80, 330, 20, 30⟩ = false :=
  ⟨by decide!,
    (checkCollision_strict_overlap (setup 0) ⟨.ground, 80, 330, 20, 30⟩).2.1 (by decide!)⟩

/-! ## Restart -/

/-- Claim C3: from a game-over state with score `s.score` and high score
`s.highScore`, whatever the obstacles and the speed, `resetGame` gives phase
playing, score 0, speed `initialGameSpeed = 5`, no obstacles and high score
`max highScore score`; both restart inputs (Enter, a click) run `resetGame`. -/
theorem resetGame_restart (s : Game) (u : ℚ) (h : s.gameState = .gameOver) :
    (resetGame u s).gameState = .playing ∧ (resetGame u s).score = 0 ∧
      (resetGame u s).gameSpeed = initialGameSpeed ∧ initialGameSpeed = 5 ∧
      (resetGame u s).obstacles = [] ∧
      (resetGame u s).highScore = max s.highScore s.score ∧
      keyPressed ENTER u s = resetGame u s ∧ mousePressed u s = resetGame u s := by
  refine ⟨rfl, rfl, rfl, rfl, rfl, ?_, ?_, ?_⟩
  · show (if s.score > s.highScore then s.score else s.highScore) = _
    split
    · rw [max_eq_right]; omega
    · rw [max_eq_left]; omega
  · simp [keyPressed, h, ENTER, SPACE]
  · simp [mousePressed, h]

/-- Witness for C3 at `crashed`: the high score becomes 230. -/
theorem resetGame_restart_witness :
    crashed.gameState = .gameOver ∧ (resetGame 0 crashed).highScore = 230 ∧
      (resetGame 0 crashed).score = 0 ∧ (resetGame 0 crashed).obstacles = [] :=
  ⟨rfl, by
    have h := resetGame_restart crashed 0 rfl
    exact ⟨h.2.2.2.2.2.1.trans (by decide), h.2.1, h.2.2.2.2.1⟩⟩

/-! ## Frames of the individual steps -/

/-- The steps of `draw` that run before the physics. -/
theorem prePhysics_player (d : Draws) (s : Game) :
    let t := spawnStep d (glitchExpire (glitchTrigger d (difficultyStep s)))
    t.dinoY = s.dinoY ∧ t.dinoVelocityY = s.dinoVelocityY ∧
      t.isCrouching = s.isCrouching ∧ t.isDinoOnGround = s.isDinoOnGround ∧
      t.gameState = s.gameState := by
  simp only [spawnStep, glitchExpire, glitchTrigger, difficultyStep]
  split_ifs <;> simp

theorem animationStep_player (s : Game) :
    (animationStep s).dinoY = s.dinoY ∧
      (animationStep s).dinoVelocityY = s.dinoVelocityY ∧
      (animationStep s).isCrouching = s.isCrouching ∧
      (animationStep s).isDinoOnGround = s.isDinoOnGround ∧
      (animationStep s).gameState = s.gameState ∧
      (animationStep s).obstacles = s.obstacles ∧
      (animationStep s).gameSpeed = s.gameSpeed := by
  simp only [animationStep]
  split_ifs <;> simp

theorem obstacleStep_player (s : Game) :
    (obstacleStep s).dinoY = s.dinoY ∧
      (obstacleStep s).dinoVelocityY = s.dinoVelocityY ∧
      (obstacleStep s).isCrouching = s.isCrouching ∧
      (obstacleStep s).isDinoOnGround = s.isDinoOnGround :=
  ⟨rfl, rfl, rfl, rfl⟩

theorem physicsStep_frame (s : Game) :
    (physicsStep s).isCrouching = s.isCrouching ∧
      (physicsStep s).gameState = s.gameState ∧
      (physicsStep s).obstacles = s.obstacles ∧
      (physicsStep s).gameSpeed = s.gameSpeed := by
  simp only [physicsStep]
  split_ifs <;> simp

/-- Lines 141-150 in closed form. -/
theorem physicsStep_player (s : Game) :
    (physicsStep s).dinoY = min (s.dinoY + (s.dinoVelocityY + gravity)) groundLine ∧
      (physicsStep s).dinoVelocityY =
        (if s.dinoY + (s.dinoVelocityY + gravity) > groundLine then 0
          else s.dinoVelocityY + gravity) ∧
      (physicsStep s).isDinoOnGround =
        decide (s.dinoY + (s.dinoVelocityY + gravity) ≥ groundLine) := by
  simp only [physicsStep, groundLine]
  split_ifs with h
  · exact ⟨(min_eq_right (le_of_lt h)).symm, rfl, rfl⟩
  · exact ⟨(min_eq_left (not_lt.mp h)).symm, rfl, rfl⟩

theorem draw_gameOver (d : Draws) (s : Game) (h : s.gameState = .gameOver) :
    draw d s = s := by
  simp [draw, h]

theorem draw_playing (d : Draws) (s : Game) (h : s.gameState = .playing) :
    draw d s = obstacleStep (animationStep (physicsStep (spawnStep d
      (glitchExpire (glitchTrigger d (difficultyStep s)))))) := by
  simp [draw, h]

/-- The player after a playing frame, in closed form. -/
theorem tick_playing_player (d : Draws) (s : Game) (h : s.gameState = .playing) :
    (tick d s).dinoY = min (s.dinoY + (s.dinoVelocityY + gravity)) groundLine ∧
      (tick d s).dinoVelocityY =
        (if s.dinoY + (s.dinoVelocityY + gravity) > groundLine then 0
          else s.dinoVelocityY + gravity) ∧
      (tick d s).isDinoOnGround =
        decide (s.dinoY + (s.dinoVelocityY + gravity) ≥ groundLine) ∧
      (tick d s).isCrouching = s.isCrouching := by
  unfold tick
  rw [draw_playing d (nextFrame s) h]
  have hp := prePhysics_player d (nextFrame s)
  simp only at hp
  obtain ⟨h1, h2, h3, -, -⟩ := hp
  have hq := physicsStep_player (spawnStep d (glitchExpire (glitchTrigger d
    (difficultyStep (nextFrame s)))))
  have hf := physicsStep_frame (spawnStep d (glitchExpire (glitchTrigger d
    (difficultyStep (nextFrame s)))))
  rw [h1, h2] at hq
  obtain ⟨q1, q2, q3⟩ := hq
  refine ⟨?_, ?_, ?_, ?_⟩
  · rw [(obstacleStep_player _).1, (animationStep_player _).1, q1]; rfl
  · rw [(obstacleStep_player _).2.1, (animationStep_player _).2.1, q2]; rfl
  · rw [(obstacleStep_player _).2.2.2, (animationStep_player _).2.2.2.1, q3]; rfl
  · rw [(obstacleStep_player _).2.2.1, (animationStep_player _).2.2.1, hf.1, h3]; rfl

theorem tick_gameOver (d : Draws) (s : Game) (h : s.gameState = .gameOver) :
    tick d s = nextFrame s := by
  unfold tick
  exact draw_gameOver d _ h

/-! ## Ground contact after every frame -/

theorem tick_playing_grounding (d : Draws) (s : Game) (h : s.gameState = .playing) :
    Grounding (tick d s) := by
  obtain ⟨h1, -, h3, -⟩ := tick_playing_player d s h
  refine ⟨?_, ?_⟩
  · rw [h1]; exact min_le_right _ _
  · rw [h1, h3, decide_eq_true_eq]
    constructor
    · intro hge; exact min_eq_right hge
    · intro hmin; rw [← hmin]; exact min_le_left _ _

theorem nextFrame_grounding (s : Game) (h : Grounding s) : Grounding (nextFrame s) := h

theorem jump_frame (s : Game) :
    (jump s).dinoY = s.dinoY ∧ (jump s).isDinoOnGround = s.isDinoOnGround ∧
      (jump s).gameState = s.gameState ∧ (jump s).isCrouching = s.isCrouching := by
  unfold jump
  split_ifs <;> simp

theorem jump_gameOver (s : Game) (h : s.gameState = .gameOver) : jump s = s := by
  simp [jump, h]

/-- Input events never enter the game-over phase and, inside it, leave the
player's height and ground flag alone. -/
theorem input_gameOver (s : Game) (e : Event) (hin : ∀ d, e ≠ .tick d)
    (h : (step s e).gameState = .gameOver) :
    s.gameState = .gameOver ∧ (step s e).dinoY = s.dinoY ∧
      (step s e).isDinoOnGround = s.isDinoOnGround := by
  cases e with
  | tick d => exact absurd rfl (hin d)
  | keyPressed k u =>
    simp only [step, keyPressed] at h ⊢
    split_ifs at h ⊢ with h1 h2 h3 h4
    · obtain ⟨j1, j2, j3, -⟩ := jump_frame s
      rw [j3] at h
      exact ⟨h, j1, j2⟩
    · exact absurd h (by simp [resetGame])
    · exact ⟨h, rfl, rfl⟩
    · exact ⟨h, rfl, rfl⟩
    · exact ⟨h, rfl, rfl⟩
  | keyReleased k =>
    simp only [step, keyReleased] at h ⊢
    split_ifs at h ⊢
    · exact ⟨h, rfl, rfl⟩
    · exact ⟨h, rfl, rfl⟩
  | mousePressed u =>
    simp only [step, mousePressed] at h ⊢
    cases hs : s.gameState with
    | playing =>
      rw [hs] at h
      simp only at h
      rw [(jump_frame s).2.2.1, hs] at h
      exact absurd h (by simp)
    | gameOver =>
      rw [hs] at h
      simp only at h
      exact absurd h (by simp [resetGame])

/-- Invariant of a session: a game-over state keeps the grounding of the frame
that ended the game. -/
theorem gameOver_grounding (u : ℚ) (es : List Event) :
    (run (setup u) es).gameState = .gameOver → Grounding (run (setup u) es) := by
  induction es using List.reverseRecOn with
  | nil => intro h; exact absurd h (by simp [run, setup, resetGame])
  | append_singleton es e ih =>
    intro h
    simp only [run, List.foldl_append, List.foldl_cons, List.foldl_nil] at h ih ⊢
    by_cases hin : ∃ d, e = .tick d
    · obtain ⟨d, rfl⟩ := hin
      cases hs : (List.foldl step (setup u) es).gameState with
      | playing => exact tick_playing_grounding d _ hs
      | gameOver =>
        show Grounding (tick d _)
        rw [tick_gameOver d _ hs]
        exact nextFrame_grounding _ (ih hs)
    · have hin' : ∀ d, e ≠ .tick d := fun d hd => hin ⟨d, hd⟩
      obtain ⟨h1, h2, h3⟩ := input_gameOver _ e hin' h
      have := ih h1
      unfold Grounding at this ⊢
      rw [h2, h3]
      exact this

/-- Claim C2: in every state reached right after a frame, from the initial
session and after any events (frames, key presses and releases, clicks) with
any draws, the player is not below the ground line and `isDinoOnGround` holds
exactly when `dinoY` is the ground line `groundY - dinoSize / 2`. -/
theorem after_tick_grounded (u : ℚ) (es : List Event) (d : Draws) :
    (run (setup u) (es ++ [.tick d])).dinoY ≤ groundY - dinoSize / 2 ∧
      ((run (setup u) (es ++ [.tick d])).isDinoOnGround = true ↔
        (run (setup u) (es ++ [.tick d])).dinoY = groundY - dinoSize / 2) := by
  have key : Grounding (run (setup u) (es ++ [.tick d])) := by
    cases hs : (run (setup u) (es ++ [.tick d])).gameState with
    | gameOver => exact gameOver_grounding u _ hs
    | playing =>
      simp only [run, List.foldl_append, List.foldl_cons, List.foldl_nil] at hs ⊢
      cases hp : (List.foldl step (setup u) es).gameState with
      | playing => exact tick_playing_grounding d _ hp
      | gameOver =>
        have : step (List.foldl step (setup u) es) (.tick d) =
            nextFrame (List.foldl step (setup u) es) := tick_gameOver d _ hp
        rw [this] at hs
        exact absurd (hp.symm.trans hs) (by simp)
  exact key

/-! ## Frozen game-over phase -/

theorem step_gameOver_frozen (s : Game) (e : Event) (h : s.gameState = .gameOver)
    (he : e.isTickOrJump = true) :
    step s e = s ∨ step s e = nextFrame s := by
  cases e with
  | tick d => exact Or.inr (tick_gameOver d s h)
  | keyPressed k u =>
    have hk : k = SPACE := by simpa [Event.isTickOrJump] using he
    left
    simp [step, keyPressed, hk, jump_gameOver s h]
  | keyReleased k => simp [Event.isTickOrJump] at he
  | mousePressed u => simp [Event.isTickOrJump] at he

theorem run_gameOver_frozen (es : List Event) :
    ∀ s : Game, s.gameState = .gameOver → (∀ e ∈ es, e.isTickOrJump = true) →
      ∃ f, run s es = atFrame f s := by
  induction es with
  | nil => intro s _ _; exact ⟨s.frameCount, rfl⟩
  | cons e es ih =>
    intro s h hes
    have he := hes e (List.mem_cons_self _ _)
    have hrest : ∀ e' ∈ es, e'.isTickOrJump = true :=
      fun e' hm => hes e' (List.mem_cons_of_mem _ hm)
    show ∃ f, run (step s e) es = atFrame f s
    rcases step_gameOver_frozen s e h he with h1 | h1
    · rw [h1]; exact ih s h hrest
    · rw [h1]
      obtain ⟨f, hf⟩ := ih (nextFrame s) h hrest
      exact ⟨f, hf.trans rfl⟩

/-- Claim C4: in the game-over phase, any number of frames and jump requests
(space bar) leave score, speed, obstacle list, spawn counter, the player's
height and velocity, the glitch variables and the phase as they were; the
state changes in p5's frame counter only, and `jump()` itself returns the
state unchanged. -/
theorem gameOver_frozen (s : Game) (es : List Event) (h : s.gameState = .gameOver)
    (hes : ∀ e ∈ es, e.isTickOrJump = true) :
    (run s es).score = s.score ∧ (run s es).gameSpeed = s.gameSpeed ∧
      (run s es).obstacles = s.obstacles ∧ (run s es).frameCounter = s.frameCounter ∧
      (run s es).dinoY = s.dinoY ∧ (run s es).dinoVelocityY = s.dinoVelocityY ∧
      (run s es).glitchActive = s.glitchActive ∧
      (run s es).glitchStartFrame = s.glitchStartFrame ∧
      (run s es).nextGlitchTrigger = s.nextGlitchTrigger ∧
      (run s es).gameState = .gameOver ∧
      (∃ f, run s es = atFrame f s) ∧ jump s = s := by
  obtain ⟨f, hf⟩ := run_gameOver_frozen es s h hes
  rw [hf]
  exact ⟨rfl, rfl, rfl, rfl, rfl, rfl, rfl, rfl, rfl, h, ⟨f, rfl⟩, jump_gameOver s h⟩

/-- Witness for C4: two frames and a jump request after the crash `crashed`. -/
theorem gameOver_frozen_witness :
    crashed.gameState = .gameOver ∧
      (run crashed [.tick lowDraws, .keyPressed SPACE 0, .tick lowDraws]).score = 230 ∧
      (run crashed [.tick lowDraws, .keyPressed SPACE 0, .tick lowDraws]).obstacles =
        [⟨.ground, 70, 330, 20, 30⟩] ∧
      (run crashed [.tick lowDraws, .keyPressed SPACE 0, .tick lowDraws]).dinoY = 340 :=
  have h := gameOver_frozen crashed
    [.tick lowDraws, .keyPressed SPACE 0, .tick lowDraws] rfl (by decide)
  ⟨rfl, h.1, h.2.2.1, h.2.2.2.2.1⟩

/-! ## Birds and a grounded player -/

/-- Claim C10: a bird as the spawn step makes it (width 35, height 20,
`y = groundY - dinoSize - r` with `20 ≤ r < 50`), at any `x`, does not collide
with a player standing on the ground line, crouching or not: the bird's bottom
edge is at most `groundY - 40`, above the hitbox's top edge (`groundY - 38`
standing, `groundY - 22` crouching).  The spawn step's own bird `newBird d` is
of this form for draws in `[0, 1)`. -/
theorem bird_misses_grounded (s : Game) (x r : ℚ) (hy : s.dinoY = groundY - dinoSize / 2)
    (h1 : 20 ≤ r) (_h2 : r < 50) :
    checkCollision s ⟨.bird, x, groundY - dinoSize - r, 35, 20⟩ = false ∧
      obsBottom ⟨.bird, x, groundY - dinoSize - r, 35, 20⟩ ≤ groundY - 40 ∧
      dinoTop s = (if s.isCrouching then groundY - 22 else groundY - 38) ∧
      (∀ d : Draws, 0 ≤ d.birdOffset → d.birdOffset < 1 →
        checkCollision s { newBird d with x := x } = false) := by
  have hb : ∀ r' : ℚ, 20 ≤ r' →
      checkCollision s ⟨.bird, x, groundY - dinoSize - r', 35, 20⟩ = false := by
    intro r' hr'
    rw [Bool.eq_false_iff, Ne, checkCollision_eq_true_iff, dinoTop_eq, hy]
    rintro ⟨-, -, -, h4⟩
    simp only [groundY, height, dinoSize] at h4
    split_ifs at h4 <;> linarith
  refine ⟨hb r h1, ?_, ?_, ?_⟩
  · simp only [obsBottom, dinoSize]; linarith
  · rw [dinoTop_eq, hy]
    simp only [dinoSize]
    split_ifs <;> ring
  · intro d hd0 _
    have : (20 : ℚ) ≤ random d.birdOffset 20 50 := by
      unfold random; nlinarith
    exact hb _ this

/-- Witness for C10: the lowest bird (`r = 20`) over the player of a new
session. -/
theorem bird_misses_grounded_witness :
    (setup 0).dinoY = groundY - dinoSize / 2 ∧
      checkCollision (setup 0) ⟨.bird, 60, groundY - dinoSize - 20, 35, 20⟩ = false :=
  ⟨rfl, (bird_misses_grounded (setup 0) 60 20 rfl (by norm_num) (by norm_num)).1⟩

/-! ## Behaviour at concrete sessions -/

/-- The sample draws are draws `random` can return. -/
theorem lowDraws_valid : lowDraws.valid := by
  decide!

/-- Claim C5 (evaluation of the code): in a new session, the space bar and
then the down arrow pressed before the next frame leave the player crouching
in the air after that frame.  `jump()` does not clear `isDinoOnGround`, which
only `draw()` updates, so the guard of line 360 still sees the ground. -/
theorem crouching_while_airborne (u : ℚ) (d : Draws) :
    (run (setup u) [.keyPressed SPACE 0, .keyPressed DOWN_ARROW 0, .tick d]).isCrouching
        = true ∧
      (run (setup u) [.keyPressed SPACE 0, .keyPressed DOWN_ARROW 0, .tick d]).isDinoOnGround
        = false ∧
      (run (setup u) [.keyPressed SPACE 0, .keyPressed DOWN_ARROW 0, .tick d]).dinoY
        = groundLine - 71 / 5 := by
  have hs : run (setup u) [.keyPressed SPACE 0, .keyPressed DOWN_ARROW 0, .tick d] =
      tick d { setup u with dinoVelocityY := jumpForce, isCrouching := true } := by
    simp [run, step, keyPressed, jump, setup, resetGame, declared, SPACE, DOWN_ARROW, ENTER]
  rw [hs]
  obtain ⟨h1, -, h3, h4⟩ :=
    tick_playing_player d { setup u with dinoVelocityY := jumpForce, isCrouching := true } rfl
  refine ⟨h4, ?_, ?_⟩
  · rw [h3, decide_eq_false_iff_not]
    simp only [setup, resetGame, groundLine, groundY, height, dinoSize, jumpForce, gravity]
    norm_num
  · rw [h1]
    simp only [setup, resetGame, groundLine, groundY, height, dinoSize, jumpForce, gravity]
    norm_num

/-- Claim C8 (evaluation of the code): in a new session whose first glitch is
due after frame 120, the glitch starts in frame 121 and is still active after
the playing frame 125 = 121 + `GLITCH_DURATION_FRAMES`, outside the half-open
window; it is active in the five frames 121 to 125 and off in frame 126. -/
theorem glitch_active_five_frames :
    (run (setup 0) (List.replicate 125 (.tick lowDraws))).gameState = .playing ∧
      (run (setup 0) (List.replicate 125 (.tick lowDraws))).frameCount = 125 ∧
      (run (setup 0) (List.replicate 125 (.tick lowDraws))).glitchStartFrame = 121 ∧
      (run (setup 0) (List.replicate 125 (.tick lowDraws))).glitchActive = true ∧
      ¬ ((run (setup 0) (List.replicate 125 (.tick lowDraws))).frameCount <
        (run (setup 0) (List.replicate 125 (.tick lowDraws))).glitchStartFrame +
          GLITCH_DURATION_FRAMES) ∧
      (List.range 127).filter
          (fun n => (run (setup 0) (List.replicate n (.tick lowDraws))).glitchActive) =
        [121, 122, 123, 124, 125] := by
  decide!

/-- Claim C9 (evaluation of the code): the session `airborneCrash` ends in the
game-over phase with the player in the air; after the restart the player is
back on the ground line with velocity 0 and not crouching, but
`isDinoOnGround` is still false, and a jump request made before the next frame
is ignored, while the same request in a new session sets the velocity to
`jumpForce`. -/
theorem restart_after_airborne_crash :
    (run (setup 0) airborneCrash).gameState = .gameOver ∧
      (run (setup 0) airborneCrash).isDinoOnGround = false ∧
      (run (setup 0) (airborneCrash ++ [.keyPressed ENTER 0])).gameState = .playing ∧
      (run (setup 0) (airborneCrash ++ [.keyPressed ENTER 0])).dinoY = groundY - dinoSize / 2 ∧
      (run (setup 0) (airborneCrash ++ [.keyPressed ENTER 0])).dinoVelocityY = 0 ∧
      (run (setup 0) (airborneCrash ++ [.keyPressed ENTER 0])).isCrouching = false ∧
      (run (setup 0) (airborneCrash ++ [.keyPressed ENTER 0])).isDinoOnGround = false ∧
      (run (setup 0) (airborneCrash ++ [.keyPressed ENTER 0, .keyPressed SPACE 0])).dinoVelocityY
        = 0 ∧
      (run (setup 0) [.keyPressed SPACE 0]).dinoVelocityY = jumpForce := by
  decide!

/-! ## The obstacle loop -/

theorem obstacleLoop_mem (s : Game) (l : List Obstacle) :
    ∀ o' ∈ (obstacleLoop s l).1, ∃ o ∈ l, o'.x = o.x - s.gameSpeed := by
  induction l with
  | nil => intro o' h; simp [obstacleLoop] at h
  | cons a l ih =>
    intro o' h
    simp only [obstacleLoop] at h
    split_ifs at h
    · obtain ⟨o, ho, hx⟩ := ih o' h
      exact ⟨o, List.mem_cons_of_mem _ ho, hx⟩
    · rcases List.mem_cons.mp h with h1 | h1
      · exact ⟨a, List.mem_cons_self _ _, by rw [h1]⟩
      · obtain ⟨o, ho, hx⟩ := ih o' h1
        exact ⟨o, List.mem_cons_of_mem _ ho, hx⟩

theorem obstacleLoop_far (s : Game) (l : List Obstacle)
    (h : ∀ o ∈ l, dinoRight ≤ o.x - s.gameSpeed) : (obstacleLoop s l).2 = false := by
  induction l with
  | nil => rfl
  | cons a l ih =>
    have hl := ih (fun o ho => h o (List.mem_cons_of_mem _ ho))
    have ha := h a (List.mem_cons_self _ _)
    have hc : checkCollision s { a with x := a.x - s.gameSpeed } = false := by
      rw [Bool.eq_false_iff, Ne, checkCollision_eq_true_iff]
      rintro ⟨h1, -, -, -⟩
      exact absurd h1 (not_lt.mpr ha)
    simp only [obstacleLoop]
    split_ifs <;> simp [hl, hc]

theorem difficultyStep_world (s : Game) :
    (difficultyStep s).score = s.score + 1 ∧
      (difficultyStep s).gameSpeed = s.gameSpeed + gameSpeedAcceleration ∧
      (difficultyStep s).gameState = s.gameState ∧
      (difficultyStep s).obstacles = s.obstacles :=
  ⟨rfl, rfl, rfl, rfl⟩

theorem glitchTrigger_world (d : Draws) (s : Game) :
    (glitchTrigger d s).score = s.score ∧ (glitchTrigger d s).gameSpeed = s.gameSpeed ∧
      (glitchTrigger d s).gameState = s.gameState ∧
      (glitchTrigger d s).obstacles = s.obstacles := by
  unfold glitchTrigger
  split_ifs <;> exact ⟨rfl, rfl, rfl, rfl⟩

theorem glitchExpire_world (s : Game) :
    (glitchExpire s).score = s.score ∧ (glitchExpire s).gameSpeed = s.gameSpeed ∧
      (glitchExpire s).gameState = s.gameState ∧
      (glitchExpire s).obstacles = s.obstacles := by
  unfold glitchExpire
  split_ifs <;> exact ⟨rfl, rfl, rfl, rfl⟩

theorem spawnStep_world (d : Draws) (s : Game) :
    (spawnStep d s).score = s.score ∧ (spawnStep d s).gameSpeed = s.gameSpeed ∧
      (spawnStep d s).gameState = s.gameState ∧
      ((spawnStep d s).obstacles = s.obstacles ∨
        ∃ o, o.x = width ∧ (spawnStep d s).obstacles = s.obstacles ++ [o]) := by
  simp only [spawnStep]
  split_ifs
  · exact ⟨rfl, rfl, rfl, Or.inr ⟨newGroundObstacle d, rfl, rfl⟩⟩
  · exact ⟨rfl, rfl, rfl, Or.inr ⟨newBird d, rfl, rfl⟩⟩
  · exact ⟨rfl, rfl, rfl, Or.inl rfl⟩

theorem physicsStep_score (s : Game) : (physicsStep s).score = s.score := by
  simp only [physicsStep]
  split_ifs <;> rfl

theorem animationStep_score (s : Game) : (animationStep s).score = s.score := by
  simp only [animationStep]
  split_ifs <;> rfl

/-- The steps of `draw` before the obstacle loop: score, speed, phase and the
obstacle list, to which the spawn step appends at most one obstacle at the
right edge. -/
theorem preLoop_frame (d : Draws) (s : Game) :
    let t := animationStep (physicsStep (spawnStep d (glitchExpire (glitchTrigger d
      (difficultyStep (nextFrame s))))))
    t.score = s.score + 1 ∧ t.gameSpeed = s.gameSpeed + gameSpeedAcceleration ∧
      t.gameState = s.gameState ∧
      (t.obstacles = s.obstacles ∨ ∃ o, o.x = width ∧ t.obstacles = s.obstacles ++ [o]) := by
  intro t
  have ha := animationStep_player (physicsStep (spawnStep d (glitchExpire (glitchTrigger d
      (difficultyStep (nextFrame s))))))
  have hp := physicsStep_frame (spawnStep d (glitchExpire (glitchTrigger d
      (difficultyStep (nextFrame s)))))
  have h4 := spawnStep_world d (glitchExpire (glitchTrigger d (difficultyStep (nextFrame s))))
  have h3 := glitchExpire_world (glitchTrigger d (difficultyStep (nextFrame s)))
  have h2 := glitchTrigger_world d (difficultyStep (nextFrame s))
  have h1 := difficultyStep_world (nextFrame s)
  refine ⟨?_, ?_, ?_, ?_⟩
  · show (animationStep _).score = _
    rw [animationStep_score, physicsStep_score, h4.1, h3.1, h2.1, h1.1]; rfl
  · show (animationStep _).gameSpeed = _
    rw [ha.2.2.2.2.2.2, hp.2.2.2, h4.2.1, h3.2.1, h2.2.1, h1.2.1]; rfl
  · show (animationStep _).gameState = _
    rw [ha.2.2.2.2.1, hp.2.1, h4.2.2.1, h3.2.2.1, h2.2.2.1, h1.2.2.1]; rfl
  · show (animationStep _).obstacles = _ ∨
      ∃ o : Obstacle, o.x = width ∧ (animationStep _).obstacles = _
    rw [ha.2.2.2.2.2.1, hp.2.2.1]
    have hobs : (glitchExpire (glitchTrigger d (difficultyStep (nextFrame s)))).obstacles =
        s.obstacles := by rw [h3.2.2.2, h2.2.2.2, h1.2.2.2]; rfl
    rw [← hobs]
    exact h4.2.2.2

theorem tick_playing_world (d : Draws) (s : Game) (h : s.gameState = .playing) :
    (tick d s).score = s.score + 1 ∧
      (tick d s).gameSpeed = s.gameSpeed + gameSpeedAcceleration ∧
      ((∀ o ∈ s.obstacles, dinoRight + (s.gameSpeed + gameSpeedAcceleration) ≤ o.x) →
        0 ≤ s.gameSpeed → s.gameSpeed ≤ 500 → (tick d s).gameState = .playing) ∧
      (∀ o' ∈ (tick d s).obstacles, o'.x = width - (s.gameSpeed + gameSpeedAcceleration) ∨
        ∃ o ∈ s.obstacles, o'.x = o.x - (s.gameSpeed + gameSpeedAcceleration)) := by
  unfold tick
  rw [draw_playing d (nextFrame s) h]
  obtain ⟨h1, h2, h3, h4⟩ := preLoop_frame d s
  set t := animationStep (physicsStep (spawnStep d (glitchExpire (glitchTrigger d
      (difficultyStep (nextFrame s)))))) with ht
  refine ⟨h1, h2, ?_, ?_⟩
  · intro hfar hs0 hs1
    have hno : (obstacleLoop t t.obstacles).2 = false := by
      apply obstacleLoop_far
      intro o ho
      rw [h2]
      rcases h4 with h4 | ⟨n, hn, h4⟩
      · rw [h4] at ho
        linarith [hfar o ho]
      · rw [h4] at ho
        rcases List.mem_append.mp ho with ho | ho
        · linarith [hfar o ho]
        · rw [List.mem_singleton] at ho
          rw [ho, hn]
          simp only [dinoRight, dinoX, dinoSize, width, gameSpeedAcceleration]
          linarith
    show (if (obstacleLoop t t.obstacles).2 = true then GameState.gameOver
      else t.gameState) = .playing
    rw [hno, h3, h]
    rfl
  · intro o' ho'
    obtain ⟨o, ho, hx⟩ := obstacleLoop_mem t t.obstacles o' ho'
    rw [h2] at hx
    rcases h4 with h4 | ⟨n, hn, h4⟩
    · rw [h4] at ho
      exact Or.inr ⟨o, ho, hx⟩
    · rw [h4] at ho
      rcases List.mem_append.mp ho with ho | ho
      · exact Or.inr ⟨o, ho, hx⟩
      · rw [List.mem_singleton] at ho
        left
        rw [hx, ho, hn]

/-! ## An undisturbed run (scenario A) -/

theorem setup_quiet (u : ℚ) : Quiet 0 (setup u) := by
  refine ⟨rfl, rfl, rfl, rfl, rfl, ?_, ?_⟩
  · show initialGameSpeed = _
    norm_num [initialGameSpeed]
  · intro o ho
    exact absurd ho (List.not_mem_nil o)

theorem tick_quiet (d : Draws) (n : ℕ) (s : Game) (hn : n < 100) (h : Quiet n s) :
    Quiet (n + 1) (tick d s) := by
  obtain ⟨hplay, hg, hy, hv, hsc, hsp, hobs⟩ := h
  have hn' : (n : ℚ) < 100 := by exact_mod_cast hn
  have hn0 : (0 : ℚ) ≤ n := Nat.cast_nonneg n
  obtain ⟨p1, p2, p3, -⟩ := tick_playing_player d s hplay
  obtain ⟨w1, w2, w3, w4⟩ := tick_playing_world d s hplay
  have hsum : s.dinoY + (s.dinoVelocityY + gravity) > groundLine := by
    rw [hy, hv]; norm_num [gravity]
  refine ⟨?_, ?_, ?_, ?_, ?_, ?_, ?_⟩
  · apply w3
    · intro o ho
      have := hobs o ho
      rw [hsp]
      simp only [dinoRight, dinoX, dinoSize, width, gameSpeedAcceleration] at this ⊢
      linarith
    · rw [hsp]; positivity
    · rw [hsp]; linarith
  · rw [p3, decide_eq_true_eq]; exact le_of_lt hsum
  · rw [p1]; exact min_eq_right (le_of_lt hsum)
  · rw [p2, if_pos hsum]
  · rw [w1, hsc]
  · rw [w2, hsp]
    simp only [gameSpeedAcceleration]
    push_cast
    ring
  · intro o' ho'
    push_cast
    rcases w4 o' ho' with hx | ⟨o, ho, hx⟩
    · rw [hx, hsp]
      simp only [gameSpeedAcceleration]
      linarith
    · have := hobs o ho
      rw [hx, hsp]
      simp only [gameSpeedAcceleration]
      linarith

theorem ticks_quiet (u : ℚ) (ds : ℕ → Draws) :
    ∀ k, k ≤ 100 → Quiet k (ticks ds k (setup u)) := by
  intro k
  induction k with
  | zero => intro _; exact setup_quiet u
  | succ k ih =>
    intro hk
    exact tick_quiet (ds k) k _ (by omega) (ih (by omega))

/-- Claim C7: from a new session (the state after `setup`: no obstacles, spawn
counter 0, spawn interval 90, speed 5, player grounded) and without input, for
all draws, after each of the first 100 frames the phase is playing and the
player is on the ground at the ground line with score equal to the number of
frames; after the 100th frame the score is 100. -/
theorem undisturbed_hundred_frames (u : ℚ) (ds : ℕ → Draws) :
    ((setup u).obstacles = [] ∧ (setup u).frameCounter = 0 ∧
      (setup u).obstacleInterval = 90 ∧ (setup u).gameSpeed = 5 ∧
      (setup u).isDinoOnGround = true) ∧
    (∀ k, k ≤ 100 →
      (ticks ds k (setup u)).gameState = .playing ∧
      (ticks ds k (setup u)).isDinoOnGround = true ∧
      (ticks ds k (setup u)).dinoY = groundY - dinoSize / 2 ∧
      (ticks ds k (setup u)).score = k) ∧
    (ticks ds 100 (setup u)).score = 100 := by
  refine ⟨⟨rfl, rfl, rfl, rfl, rfl⟩, ?_, ?_⟩
  · intro k hk
    obtain ⟨h1, h2, h3, -, h5, -, -⟩ := ticks_quiet u ds k hk
    exact ⟨h1, h2, h3, h5⟩
  · exact (ticks_quiet u ds 100 le_rfl).2.2.2.2.1

/-- Witness for C7: the run with all draws at their lower end, at frame 100. -/
theorem undisturbed_hundred_frames_witness :
    (100 : ℕ) ≤ 100 ∧
      (ticks (fun _ => lowDraws) 100 (setup 0)).gameState = .playing ∧
      (ticks (fun _ => lowDraws) 100 (setup 0)).score = 100 :=
  have h := (undisturbed_hundred_frames 0 (fun _ => lowDraws)).2.1 100 le_rfl
  ⟨le_rfl, h.1, h.2.2.2⟩

/-! ## A jump (scenario B) -/

theorem arc_airborne (m : ℕ) (h1 : 1 ≤ m) (h2 : m ≤ 36) :
    -15 * (m : ℚ) + 4 / 10 * (m : ℚ) * ((m : ℚ) + 1) < 0 := by
  have a : (1 : ℚ) ≤ m := by exact_mod_cast h1
  have b : (m : ℚ) ≤ 36 := by exact_mod_cast h2
  nlinarith

theorem arc_landed (m : ℕ) (h : 37 ≤ m) :
    0 ≤ -15 * (m : ℚ) + 4 / 10 * (m : ℚ) * ((m : ℚ) + 1) := by
  have a : (37 : ℚ) ≤ m := by exact_mod_cast h
  nlinarith

theorem jump_arc_zero (s : Game) (hplay : s.gameState = .playing)
    (hy : s.dinoY = groundLine) (hg : s.isDinoOnGround = true)
    (hc : s.isCrouching = false) : Arc 0 (jump s) := by
  have : jump s = { s with dinoVelocityY := jumpForce } := by
    simp [jump, hplay, hg, hc]
  rw [this]
  refine ⟨?_, ?_⟩
  · show s.dinoY = _
    rw [hy]; simp
  · show jumpForce = _
    simp [jumpForce]

theorem tick_arc (d : Draws) (k : ℕ) (s : Game) (hplay : s.gameState = .playing)
    (h : Arc k s) :
    (k + 1 ≤ 36 → Arc (k + 1) (tick d s) ∧ (tick d s).isDinoOnGround = false) ∧
    (k + 1 = 37 → (tick d s).isDinoOnGround = true ∧ (tick d s).dinoY = groundLine ∧
      (tick d s).dinoVelocityY = 0) := by
  obtain ⟨hy, hv⟩ := h
  obtain ⟨p1, p2, p3, -⟩ := tick_playing_player d s hplay
  have hsum : s.dinoY + (s.dinoVelocityY + gravity) =
      groundLine + (-15 * ((k + 1 : ℕ) : ℚ) +
        4 / 10 * ((k + 1 : ℕ) : ℚ) * (((k + 1 : ℕ) : ℚ) + 1)) := by
    rw [hy, hv]
    simp only [gravity]
    push_cast
    ring
  constructor
  · intro hk
    have hneg := arc_airborne (k + 1) (by omega) hk
    have hlt : s.dinoY + (s.dinoVelocityY + gravity) < groundLine := by
      rw [hsum]; linarith
    refine ⟨⟨?_, ?_⟩, ?_⟩
    · rw [p1, min_eq_left (le_of_lt hlt), hsum]; ring
    · rw [p2, if_neg (not_lt.mpr (le_of_lt hlt)), hv]
      simp only [gravity]
      push_cast
      ring
    · rw [p3, decide_eq_false_iff_not]
      exact not_le.mpr hlt
  · intro hk
    have hpos := arc_landed (k + 1) (by omega)
    have hk' : ((k + 1 : ℕ) : ℚ) = 37 := by exact_mod_cast hk
    have hgt : s.dinoY + (s.dinoVelocityY + gravity) > groundLine := by
      rw [hsum, hk']; norm_num
    refine ⟨?_, ?_, ?_⟩
    · rw [p3, decide_eq_true_eq]; exact le_of_lt hgt
    · rw [p1]; exact min_eq_right (le_of_lt hgt)
    · rw [p2, if_pos hgt]

theorem ticks_arc (s : Game) (ds : ℕ → Draws) (h0 : Arc 0 s)
    (hstay : ∀ j, j < 37 → (ticks ds j s).gameState = .playing) :
    ∀ k, k ≤ 36 → Arc k (ticks ds k s) ∧ (1 ≤ k → (ticks ds k s).isDinoOnGround = false) := by
  intro k
  induction k with
  | zero => intro _; exact ⟨h0, fun h => absurd h (by omega)⟩
  | succ k ih =>
    intro hk
    have hprev := (ih (by omega)).1
    have := (tick_arc (ds k) k (ticks ds k s) (hstay k (by omega)) hprev).1 hk
    exact ⟨this.1, fun _ => this.2⟩

/-- Claim C6: from a playing state with the player at rest on the ground (at
the ground line, velocity 0, grounded, not crouching), after `jump()` and `k`
frames without input during which the phase stays playing, with
`jumpForce = -15` and `gravity = 0.8` in exact arithmetic: for `1 ≤ k ≤ 36`
the player is airborne at `dinoY = groundLine - 15 k + 0.4 k (k + 1)`, strictly
above the ground line; after frame 37 the player is grounded at the ground
line with velocity 0; and 37 is the first `k ≥ 1` whose displacement
`-15 k + 0.4 k (k + 1)` is nonnegative. -/
theorem jump_returns_at_frame_37 (s : Game) (ds : ℕ → Draws)
    (hplay : s.gameState = .playing) (hy : s.dinoY = groundY - dinoSize / 2)
    (_hv : s.dinoVelocityY = 0) (hg : s.isDinoOnGround = true)
    (hc : s.isCrouching = false)
    (hstay : ∀ j, j < 37 → (ticks ds j (jump s)).gameState = .playing) :
    (jumpForce = -15 ∧ gravity = 8 / 10) ∧
    (∀ k : ℕ, 1 ≤ k → k ≤ 36 →
      (ticks ds k (jump s)).isDinoOnGround = false ∧
      (ticks ds k (jump s)).dinoY =
        groundY - dinoSize / 2 - 15 * (k : ℚ) + 4 / 10 * (k : ℚ) * ((k : ℚ) + 1) ∧
      (ticks ds k (jump s)).dinoY < groundY - dinoSize / 2) ∧
    ((ticks ds 37 (jump s)).isDinoOnGround = true ∧
      (ticks ds 37 (jump s)).dinoY = groundY - dinoSize / 2 ∧
      (ticks ds 37 (jump s)).dinoVelocityY = 0) ∧
    (∀ k : ℕ, 1 ≤ k →
      ((0 : ℚ) ≤ -15 * (k : ℚ) + 4 / 10 * (k : ℚ) * ((k : ℚ) + 1) ↔ 37 ≤ k)) := by
  have h0 : Arc 0 (jump s) := jump_arc_zero s hplay hy hg hc
  have harc := ticks_arc (jump s) ds h0 hstay
  refine ⟨⟨rfl, rfl⟩, ?_, ?_, ?_⟩
  · intro k hk1 hk2
    obtain ⟨⟨a1, -⟩, a2⟩ := harc k hk2
    have hneg := arc_airborne k hk1 hk2
    refine ⟨a2 hk1, ?_, ?_⟩
    · rw [a1]; rfl
    · rw [a1]
      show _ < groundLine
      linarith
  · exact (tick_arc (ds 36) 36 (ticks ds 36 (jump s)) (hstay 36 (by omega))
      (harc 36 le_rfl).1).2 rfl
  · intro k hk1
    constructor
    · intro hnn
      by_contra hlt
      have := arc_airborne k hk1 (by omega)
      linarith
    · exact arc_landed k

/-- Witness for C6: a jump in a new session; 18 frames later the player is at
`340 - 270 + 136.8 = 206.8`, and after frame 37 back on the ground. -/
theorem jump_returns_at_frame_37_witness :
    (∀ j, j < 37 →
        (ticks (fun _ => lowDraws) j (jump (setup 0))).gameState = .playing) ∧
      (ticks (fun _ => lowDraws) 18 (jump (setup 0))).dinoY = 1034 / 5 ∧
      (ticks (fun _ => lowDraws) 37 (jump (setup 0))).isDinoOnGround = true :=
  have hstay : ∀ j, j < 37 →
      (ticks (fun _ => lowDraws) j (jump (setup 0))).gameState = .playing := by
    decide!
  have h := jump_returns_at_frame_37 (setup 0) (fun _ => lowDraws) rfl rfl rfl rfl rfl hstay
  ⟨hstay, (h.2.1 18 (by norm_num) (by norm_num)).2.1.trans
    (by norm_num [groundY, height, dinoSize]), h.2.2.1.1⟩

end DinoGame
